import Mathlib

/-!
Verification of the Fenerbahçe championship tracker program
(`src/state.rs`, `src/instruction.rs`, `src/processor.rs`).

The on-chain state is an 11-byte borsh-encoded record
`FenerbahceTracker { total_trophies: u64, current_season: u16, seasons_played: u8 }`.
Two instructions exist: `InitializeTracker` (discriminant byte 0) creates the
singleton record at its PDA, and `PlaySeason` (discriminant byte 1) advances the
record one season, consulting a hardcoded 15-entry season table.

The embedding models machine integers as `Nat` with explicit `% 2^w` where the
source can wrap, byte buffers as `List Nat`, fallible paths as `Except` /
`Option`, and the host's atomic commit-or-discard rule by having account-level
functions return either the new data bytes or an error (an error means the host
discards every write of the call).  The PDA address and the program id are
abstract `Nat` parameters: address derivation itself (SHA-256 based
`find_program_address`) is an external collaborator and only its output is
compared for equality by the program.
-/

namespace FBTracker

/-- Modulus of the `u64` field width. -/
def U64_MOD : Nat := 2 ^ 64

/-- Modulus of the `u16` field width. -/
def U16_MOD : Nat := 2 ^ 16

/-- Modulus of the `u8` field width. -/
def U8_MOD : Nat := 2 ^ 8

/-- src/state.rs lines 4-9: the persisted tracker record.  Fields are `u64`,
`u16`, `u8` in the source; they are modelled as `Nat` and bounded explicitly
where it matters. -/
structure FenerbahceTracker where
  total_trophies : Nat
  current_season : Nat
  seasons_played : Nat
deriving DecidableEq

/-- src/state.rs line 12. -/
def STARTING_SEASON : Nat := 2010

/-- src/state.rs line 13. -/
def ENDING_SEASON : Nat := 2024

/-- src/state.rs line 14. -/
def INITIAL_TROPHIES : Nat := 17

/-- src/state.rs lines 16-22: `FenerbahceTracker::new`. -/
def FenerbahceTracker.new : FenerbahceTracker :=
  { total_trophies := INITIAL_TROPHIES
    current_season := STARTING_SEASON
    seasons_played := 0 }

/-- src/state.rs lines 28-30: `is_season_complete`. -/
def FenerbahceTracker.is_season_complete (t : FenerbahceTracker) : Bool :=
  decide (ENDING_SEASON < t.current_season)

/-- A record whose fields fit their declared machine widths. -/
def FenerbahceTracker.Wf (t : FenerbahceTracker) : Prop :=
  t.total_trophies < U64_MOD ∧ t.current_season < U16_MOD ∧ t.seasons_played < U8_MOD

/-- src/state.rs lines 34-40: one entry of the static season table. -/
structure SeasonData where
  season : Nat
  position : Nat
  champion : Bool
  points : Nat
  description : String

/-- src/state.rs lines 43-59: the hardcoded table `SeasonData::SEASONS`. -/
def SeasonData.SEASONS : List SeasonData :=
  [ { season := 2010, position := 1, champion := true, points := 82,
      description := "CHAMPIONS! Title won under Aykut Kocaman, finished same point with Trabzonspor (82 pts)" },
    { season := 2011, position := 2, champion := false, points := 68,
      description := "2nd place finish, 9 points behind champion Galatasaray (77 pts)" },
    { season := 2012, position := 2, champion := false, points := 61,
      description := "2nd place finish, 10 points behind champion Galatasaray (71 pts)" },
    { season := 2013, position := 1, champion := true, points := 74,
      description := "CHAMPIONS! Title won under Ersun Yanal, finished 9 points ahead of Galatasaray (65 pts)" },
    { season := 2014, position := 2, champion := false, points := 74,
      description := "2nd place finish, 3 points behind champion Galatasaray (77 pts)" },
    { season := 2015, position := 2, champion := false, points := 74,
      description := "2nd place finish, 5 points behind champion Besiktas (79 pts)" },
    { season := 2016, position := 3, champion := false, points := 64,
      description := "3rd place finish, 13 points behind champion Besiktas (77 pts)" },
    { season := 2017, position := 2, champion := false, points := 72,
      description := "2nd place finish, 3 points behind champion Galatasaray (75 pts)" },
    { season := 2018, position := 6, champion := false, points := 46,
      description := "6th place finish, 23 points behind champion Galatasaray (69 pts)" },
    { season := 2019, position := 7, champion := false, points := 53,
      description := "7th place finish, 13 points behind champion Basaksehir (66 pts)" },
    { season := 2020, position := 3, champion := false, points := 82,
      description := "3rd place finish, tied on points with Galatasaray, 2 points behind champion Besiktas (84 pts)" },
    { season := 2021, position := 2, champion := false, points := 73,
      description := "2nd place finish, 8 points behind champion Trabzonspor (81 pts)" },
    { season := 2022, position := 2, champion := false, points := 80,
      description := "2nd place finish, 5 points behind champion Galatasaray (85 pts)" },
    { season := 2023, position := 2, champion := false, points := 99,
      description := "2nd place finish despite a record 99 points, 3 points behind champion Galatasaray (102 pts)" },
    { season := 2024, position := 2, champion := false, points := 84,
      description := "2nd place finish, 11 points behind champion Galatasaray (95 pts)" } ]

/-- src/state.rs lines 61-63: `SeasonData::get_season_data`. -/
def SeasonData.get_season_data (season_year : Nat) : Option SeasonData :=
  SeasonData.SEASONS.find? (fun s => s.season == season_year)

/-- Little-endian byte encoding of `n` into exactly `k` bytes
(the borsh fixed-width integer layout). -/
def natToLe : Nat → Nat → List Nat
  | 0, _ => []
  | k + 1, n => n % 256 :: natToLe k (n / 256)

/-- Little-endian byte decoding, inverse of `natToLe`. -/
def leToNat : List Nat → Nat
  | [] => 0
  | b :: bs => b + 256 * leToNat bs

/-- Borsh serialization of a tracker record: fields in declaration order,
each fixed-width little-endian (8 + 2 + 1 = 11 bytes). -/
def encode (t : FenerbahceTracker) : List Nat :=
  natToLe 8 t.total_trophies ++ natToLe 2 t.current_season ++ natToLe 1 t.seasons_played

/-- Borsh `FenerbahceTracker::try_from_slice`: reads the three fixed-width
fields (failing when bytes are missing) and fails when bytes remain
unconsumed, so it succeeds exactly on 11-byte inputs. -/
def decode (bs : List Nat) : Option FenerbahceTracker :=
  if bs.length = 11 then
    some { total_trophies := leToNat (bs.take 8)
           current_season := leToNat ((bs.drop 8).take 2)
           seasons_played := leToNat (bs.drop 10) }
  else none

/-- The `solana_program::program_error::ProgramError` values this program
produces (src/processor.rs, src/instruction.rs); a borsh decode failure
surfaces as `BorshIoError`. -/
inductive ProgramError where
  | InvalidAccountData
  | AccountAlreadyInitialized
  | IncorrectProgramId
  | InvalidInstructionData
  | BorshIoError
deriving DecidableEq

instance {ε α : Type} [DecidableEq ε] [DecidableEq α] : DecidableEq (Except ε α) := fun a b =>
  match a, b with
  | .ok x, .ok y =>
    if h : x = y then .isTrue (by rw [h]) else .isFalse (by intro hc; cases hc; exact h rfl)
  | .error x, .error y =>
    if h : x = y then .isTrue (by rw [h]) else .isFalse (by intro hc; cases hc; exact h rfl)
  | .ok _, .error _ => .isFalse (by intro hc; cases hc)
  | .error _, .ok _ => .isFalse (by intro hc; cases hc)

/-- src/instruction.rs lines 4-19: the two instructions. -/
inductive FenerbahceInstruction where
  | InitializeTracker
  | PlaySeason
deriving DecidableEq

/-- src/instruction.rs lines 23-34: `FenerbahceInstruction::unpack`.
`split_first` on an empty slice yields `InvalidInstructionData`; otherwise the
first byte is matched and the rest is ignored. -/
def FenerbahceInstruction.unpack (input : List Nat) :
    Except ProgramError FenerbahceInstruction :=
  match input with
  | [] => .error .InvalidInstructionData
  | variant :: _rest =>
    match variant with
    | 0 => .ok .InitializeTracker
    | 1 => .ok .PlaySeason
    | _ => .error .InvalidInstructionData

/-- src/processor.rs lines 140-167: the state transition applied by
`Processor::process_play_season` to the decoded record.  A complete record is
returned unchanged with success; otherwise the season table is consulted
(absence is `InvalidAccountData`); on a championship season the trophy counter
is `checked_add`ed (overflow is `InvalidAccountData`); then the season and
played counters are incremented, wrapping at their `u16` / `u8` widths. -/
def process_play_season (t : FenerbahceTracker) :
    Except ProgramError FenerbahceTracker :=
  if t.is_season_complete then .ok t
  else
    match SeasonData.get_season_data t.current_season with
    | none => .error .InvalidAccountData
    | some sd =>
      if sd.champion then
        if t.total_trophies + 1 < U64_MOD then
          .ok { total_trophies := t.total_trophies + 1
                current_season := (t.current_season + 1) % U16_MOD
                seasons_played := (t.seasons_played + 1) % U8_MOD }
        else .error .InvalidAccountData
      else
        .ok { total_trophies := t.total_trophies
              current_season := (t.current_season + 1) % U16_MOD
              seasons_played := (t.seasons_played + 1) % U8_MOD }

/-- src/processor.rs lines 113-181: `Processor::process_play_season` at the
account level.  `expected_pda` abstracts `find_tracker_pda program_id`;
`tracker_key`, `owner`, `program_id` are the account key, account owner and
program id; `data` is the account's byte buffer.  An `.ok` result carries the
account data after the call; an `.error` result means the host discards all
writes, leaving the stored data unchanged.  A complete record returns success
before any serialization, so the data is returned as-is; otherwise the updated
record is serialized over the front of the buffer. -/
def process_play_season_data (expected_pda tracker_key owner program_id : Nat)
    (data : List Nat) : Except ProgramError (List Nat) :=
  if tracker_key ≠ expected_pda then .error .InvalidAccountData
  else if owner ≠ program_id then .error .IncorrectProgramId
  else
    match decode data with
    | none => .error .BorshIoError
    | some t =>
      if t.is_season_complete then .ok data
      else
        match process_play_season t with
        | .error e => .error e
        | .ok t' => .ok (encode t' ++ data.drop 11)

/-- src/processor.rs lines 44-110: `Processor::process_initialize_tracker` at
the account level.  The caller-supplied `tracker_key` must equal the derived
PDA; the account must hold no data; then the system program allocates exactly
11 zeroed bytes (funded to rent exemption by the external rent collaborator)
and `FenerbahceTracker::new()` is serialized into them, so the resulting data
is `encode FenerbahceTracker.new`. -/
def process_initialize_tracker (expected_pda tracker_key : Nat)
    (data : List Nat) : Except ProgramError (List Nat) :=
  if tracker_key ≠ expected_pda then .error .InvalidAccountData
  else if 0 < data.length then .error .AccountAlreadyInitialized
  else .ok (encode FenerbahceTracker.new)

/-- Iterated `PlaySeason` calls on the account data (with a valid target and
owner), stopping at the first error. -/
def advance_iter (pda pid : Nat) : Nat → List Nat → Except ProgramError (List Nat)
  | 0, data => .ok data
  | n + 1, data =>
    match process_play_season_data pda pda pid pid data with
    | .ok d' => advance_iter pda pid n d'
    | .error e => .error e

/-- The record states reachable through the public operations: the state
written by `InitializeTracker`, closed under successful `PlaySeason` calls. -/
inductive Reachable : FenerbahceTracker → Prop where
  | init : Reachable FenerbahceTracker.new
  | step (t t' : FenerbahceTracker) : Reachable t →
      process_play_season t = .ok t' → Reachable t'

theorem U64_MOD_eq : U64_MOD = 18446744073709551616 := by norm_num [U64_MOD]

theorem U16_MOD_eq : U16_MOD = 65536 := by norm_num [U16_MOD]

theorem U8_MOD_eq : U8_MOD = 256 := by norm_num [U8_MOD]

theorem length_natToLe (k n : Nat) : (natToLe k n).length = k := by
  induction k generalizing n with
  | zero => rfl
  | succ k ih => simp [natToLe, ih]

theorem leToNat_natToLe (k n : Nat) (h : n < 256 ^ k) : leToNat (natToLe k n) = n := by
  induction k generalizing n with
  | zero =>
    simp only [natToLe, leToNat]
    simp only [pow_zero] at h
    omega
  | succ k ih =>
    have hd : n / 256 < 256 ^ k := by
      rw [Nat.div_lt_iff_lt_mul (by norm_num)]
      calc n < 256 ^ (k + 1) := h
        _ = 256 ^ k * 256 := by ring
    simp only [natToLe, leToNat, ih _ hd]
    omega

theorem natToLe_getD (k : Nat) : ∀ n i, i < k → (natToLe k n).getD i 0 = n / 256 ^ i % 256 := by
  induction k with
  | zero => intro n i h; omega
  | succ k ih =>
    intro n i h
    match i with
    | 0 => simp [natToLe]
    | j + 1 =>
      have hj : j < k := by omega
      simp only [natToLe, List.getD_cons_succ, ih (n / 256) j hj,
        Nat.div_div_eq_div_mul, pow_succ]
      ring_nf

theorem encode_split (t : FenerbahceTracker) :
    (encode t).take 8 = natToLe 8 t.total_trophies ∧
    ((encode t).drop 8).take 2 = natToLe 2 t.current_season ∧
    (encode t).drop 10 = natToLe 1 t.seasons_played := by
  have l8 : (natToLe 8 t.total_trophies).length = 8 := length_natToLe 8 _
  have l2 : (natToLe 2 t.current_season).length = 2 := length_natToLe 2 _
  have hdrop8 : (encode t).drop 8 = natToLe 2 t.current_season ++ natToLe 1 t.seasons_played := by
    rw [encode, List.append_assoc]
    exact List.drop_left' l8
  refine ⟨?_, ?_, ?_⟩
  · rw [encode, List.append_assoc]
    exact List.take_left' l8
  · rw [hdrop8]
    exact List.take_left' l2
  · have : (encode t).drop 10 = ((encode t).drop 8).drop 2 := by
      rw [List.drop_drop]
    rw [this, hdrop8]
    exact List.drop_left' l2

theorem encode_length (t : FenerbahceTracker) : (encode t).length = 11 := by
  simp [encode, length_natToLe]

theorem decode_encode (t : FenerbahceTracker) (hw : t.Wf) : decode (encode t) = some t := by
  obtain ⟨h1, h2, h3⟩ := hw
  obtain ⟨e1, e2, e3⟩ := encode_split t
  rw [decode, if_pos (encode_length t), e1, e2, e3,
    leToNat_natToLe 8 _ (by rw [U64_MOD_eq] at h1; norm_num; omega),
    leToNat_natToLe 2 _ (by rw [U16_MOD_eq] at h2; norm_num; omega),
    leToNat_natToLe 1 _ (by rw [U8_MOD_eq] at h3; norm_num; omega)]

theorem complete_iff (t : FenerbahceTracker) :
    t.is_season_complete = true ↔ 2024 < t.current_season := by
  simp [FenerbahceTracker.is_season_complete, ENDING_SEASON]

theorem not_complete_le {t : FenerbahceTracker} (hc : t.is_season_complete = false) :
    t.current_season ≤ 2024 := by
  have := (complete_iff t).mpr
  rw [hc] at this
  by_contra hgt
  exact absurd (this (by omega)) (by simp)

/-- Case analysis of a successful `process_play_season` call: either the record
was complete and is returned unchanged, or it was incomplete, the season lookup
succeeded, the two counters were incremented modulo their widths, and the
trophy counter grew by 0 or 1. -/
theorem play_ok_cases {t t' : FenerbahceTracker} (h : process_play_season t = .ok t') :
    (t.is_season_complete = true ∧ t' = t) ∨
    (t.is_season_complete = false ∧
      (SeasonData.get_season_data t.current_season).isSome = true ∧
      t'.current_season = (t.current_season + 1) % U16_MOD ∧
      t'.seasons_played = (t.seasons_played + 1) % U8_MOD ∧
      t.total_trophies ≤ t'.total_trophies ∧
      t'.total_trophies ≤ t.total_trophies + 1) := by
  unfold process_play_season at h
  by_cases hc : t.is_season_complete = true
  · left
    rw [if_pos hc] at h
    cases h
    exact ⟨hc, rfl⟩
  · right
    rw [Bool.not_eq_true] at hc
    rw [hc] at h
    simp only [Bool.false_eq_true, if_false] at h
    refine ⟨hc, ?_⟩
    cases hsd : SeasonData.get_season_data t.current_season with
    | none => rw [hsd] at h; cases h
    | some sd =>
      rw [hsd] at h
      dsimp only at h
      by_cases hch : sd.champion = true
      · rw [if_pos hch] at h
        by_cases hov : t.total_trophies + 1 < U64_MOD
        · rw [if_pos hov] at h
          cases h
          refine ⟨rfl, rfl, rfl, ?_, ?_⟩ <;> dsimp only <;> omega
        · rw [if_neg hov] at h
          cases h
      · rw [if_neg hch] at h
        cases h
        refine ⟨rfl, rfl, rfl, ?_, ?_⟩ <;> dsimp only <;> omega

/-- The season table covers every year in `[2010, 2024]`. -/
theorem ledger_covers (k : Nat) (hk : k < 15) :
    (SeasonData.get_season_data (2010 + k)).isSome = true := by
  revert k
  decide

/-- Inductive invariant of the reachable record states. -/
def GoodState (t : FenerbahceTracker) : Prop :=
  t.current_season = 2010 + t.seasons_played ∧ t.seasons_played ≤ 15 ∧
  17 ≤ t.total_trophies ∧ t.total_trophies ≤ 17 + t.seasons_played

theorem reachable_good {t : FenerbahceTracker} (h : Reachable t) : GoodState t := by
  induction h with
  | init =>
    refine ⟨?_, ?_, ?_, ?_⟩ <;> simp [FenerbahceTracker.new, STARTING_SEASON, INITIAL_TROPHIES]
  | step t t' hr hok ih =>
    obtain ⟨i1, i2, i3, i4⟩ := ih
    rcases play_ok_cases hok with ⟨hc, rfl⟩ | ⟨hc, hsome, hcs, hsp, hmono, hub⟩
    · exact ⟨i1, i2, i3, i4⟩
    · have hle : t.current_season ≤ 2024 := not_complete_le hc
      have hcs' : t'.current_season = t.current_season + 1 := by
        rw [hcs, U16_MOD_eq]
        exact Nat.mod_eq_of_lt (by omega)
      have hsp' : t'.seasons_played = t.seasons_played + 1 := by
        rw [hsp, U8_MOD_eq]
        exact Nat.mod_eq_of_lt (by omega)
      exact ⟨by omega, by omega, by omega, by omega⟩

/-- C1: in every state reachable through the public operations (the record
written by Initialize, closed under successful Advance calls), the tracker
record satisfies `current_season = 2010 + seasons_played` and
`total_trophies ≥ 17`. -/
theorem C1_state_invariant (t : FenerbahceTracker) (hr : Reachable t) :
    t.current_season = 2010 + t.seasons_played ∧ 17 ≤ t.total_trophies := by
  obtain ⟨i1, _, i3, _⟩ := reachable_good hr
  exact ⟨i1, i3⟩

theorem C1_state_invariant_witness :
    FenerbahceTracker.new.current_season = 2010 + FenerbahceTracker.new.seasons_played ∧
    17 ≤ FenerbahceTracker.new.total_trophies :=
  C1_state_invariant FenerbahceTracker.new Reachable.init

/-- C2: for every stored record with `current_season > 2024`, a `PlaySeason`
call with a valid target and owner returns success and leaves the account data
byte-for-byte unchanged, and so does any number of repeated calls. -/
theorem C2_terminal_noop (pda pid : Nat) (data : List Nat) (t : FenerbahceTracker)
    (hd : decode data = some t) (hc : 2024 < t.current_season) :
    process_play_season_data pda pda pid pid data = .ok data ∧
    ∀ n, advance_iter pda pid n data = .ok data := by
  have hcomp : t.is_season_complete = true := (complete_iff t).mpr hc
  have h1 : process_play_season_data pda pda pid pid data = .ok data := by
    unfold process_play_season_data
    rw [if_neg (by simp), if_neg (by simp), hd]
    dsimp only
    rw [if_pos hcomp]
  refine ⟨h1, ?_⟩
  intro n
  induction n with
  | zero => rfl
  | succ n ih =>
    unfold advance_iter
    rw [h1]
    exact ih

theorem C2_terminal_noop_witness :
    process_play_season_data 0 0 0 0 (encode ⟨17, 2025, 15⟩) = .ok (encode ⟨17, 2025, 15⟩) ∧
    advance_iter 0 0 3 (encode ⟨17, 2025, 15⟩) = .ok (encode ⟨17, 2025, 15⟩) := by
  have h := C2_terminal_noop 0 0 (encode ⟨17, 2025, 15⟩) ⟨17, 2025, 15⟩ (by decide) (by decide)
  exact ⟨h.1, h.2 3⟩

/-- C3 counterexample: the claim quantifies over every starting record and
every successful Advance, but from the complete record `⟨17, 2025, 15⟩` the
Advance call succeeds while `current_season` stays at 2025 instead of
increasing by exactly 1. -/
theorem C3_counterexample :
    process_play_season ⟨17, 2025, 15⟩ = .ok ⟨17, 2025, 15⟩ ∧
    (FenerbahceTracker.mk 17 2025 15).current_season ≠
      (FenerbahceTracker.mk 17 2025 15).current_season + 1 := by
  exact ⟨by decide, by decide⟩

/-- C3 (amended): for every starting record that is not complete
(`current_season ≤ 2024`) and whose `seasons_played` counter is below the u8
maximum, after any Advance call that returns success, `current_season` and
`seasons_played` each increase by exactly 1 and `total_trophies` never
decreases.  (A successful Advance from a complete record is a no-op, and a
`seasons_played` of 255 would wrap the u8 counter to 0.) -/
theorem C3_amended_monotonic (t t' : FenerbahceTracker)
    (hc : t.is_season_complete = false) (hp : t.seasons_played < 255)
    (h : process_play_season t = .ok t') :
    t'.current_season = t.current_season + 1 ∧
    t'.seasons_played = t.seasons_played + 1 ∧
    t.total_trophies ≤ t'.total_trophies := by
  rcases play_ok_cases h with ⟨hc', _⟩ | ⟨_, _, hcs, hsp, hmono, _⟩
  · rw [hc'] at hc
    cases hc
  · have hle : t.current_season ≤ 2024 := not_complete_le hc
    refine ⟨?_, ?_, hmono⟩
    · rw [hcs, U16_MOD_eq]
      exact Nat.mod_eq_of_lt (by omega)
    · rw [hsp, U8_MOD_eq]
      exact Nat.mod_eq_of_lt (by omega)

theorem C3_amended_monotonic_witness :
    (FenerbahceTracker.mk 18 2011 1).current_season =
      FenerbahceTracker.new.current_season + 1 ∧
    (FenerbahceTracker.mk 18 2011 1).seasons_played =
      FenerbahceTracker.new.seasons_played + 1 ∧
    FenerbahceTracker.new.total_trophies ≤ (FenerbahceTracker.mk 18 2011 1).total_trophies :=
  C3_amended_monotonic FenerbahceTracker.new ⟨18, 2011, 1⟩ (by decide) (by decide) (by decide)

/-- C4: during Advance on a non-complete record whose current season's ledger
entry has the champion flag set, `total_trophies` is incremented by exactly 1;
when `total_trophies` is the maximum u64 value (so `checked_add` would wrap),
the call fails with the overflow error (`ProgramError::InvalidAccountData`,
the spec's `CounterOverflow`) both at record level and at account level, and an
error return means the host discards every write, so nothing partial is
stored. -/
theorem C4_champion_increment (t : FenerbahceTracker) (data : List Nat) (pda pid : Nat)
    (hc : t.is_season_complete = false)
    (hch : (SeasonData.get_season_data t.current_season).map SeasonData.champion = some true)
    (hd : decode data = some t) :
    (t.total_trophies + 1 = U64_MOD →
      process_play_season t = .error .InvalidAccountData ∧
      process_play_season_data pda pda pid pid data = .error .InvalidAccountData) ∧
    (t.total_trophies + 1 < U64_MOD →
      ∃ t', process_play_season t = .ok t' ∧
        t'.total_trophies = t.total_trophies + 1) := by
  cases hsd : SeasonData.get_season_data t.current_season with
  | none => rw [hsd] at hch; cases hch
  | some sd =>
    rw [hsd] at hch
    simp only [Option.map_some', Option.some.injEq] at hch
    constructor
    · intro hov
      have h1 : process_play_season t = .error .InvalidAccountData := by
        unfold process_play_season
        rw [hc]
        simp only [Bool.false_eq_true, if_false, hsd]
        rw [if_pos hch, if_neg (by omega)]
      refine ⟨h1, ?_⟩
      unfold process_play_season_data
      rw [if_neg (by simp), if_neg (by simp), hd]
      dsimp only
      rw [if_neg (by rw [hc]; simp), h1]
    · intro hov
      refine ⟨⟨t.total_trophies + 1, (t.current_season + 1) % U16_MOD,
        (t.seasons_played + 1) % U8_MOD⟩, ?_, rfl⟩
      unfold process_play_season
      rw [hc]
      simp only [Bool.false_eq_true, if_false, hsd]
      rw [if_pos hch, if_pos hov]

theorem C4_champion_increment_witness :
    process_play_season ⟨U64_MOD - 1, 2010, 0⟩ = .error .InvalidAccountData ∧
    process_play_season_data 0 0 0 0 (encode ⟨U64_MOD - 1, 2010, 0⟩) =
      .error .InvalidAccountData :=
  (C4_champion_increment ⟨U64_MOD - 1, 2010, 0⟩ (encode ⟨U64_MOD - 1, 2010, 0⟩) 0 0
    (by decide) (by decide) (by decide)).1 (by decide)

/-- C5: an Initialize call whose target equals the derived PDA and whose
storage holds no data succeeds, the resulting account data is the encoding of
`FenerbahceTracker::new()`, that encoding has exactly the codec's fixed length
11, and it decodes to `{total_trophies = 17, current_season = 2010,
seasons_played = 0}`. -/
theorem C5_initialize (pda tracker_key : Nat) (hk : tracker_key = pda)
    (data : List Nat) (hd : data.length = 0) :
    process_initialize_tracker pda tracker_key data = .ok (encode FenerbahceTracker.new) ∧
    (encode FenerbahceTracker.new).length = 11 ∧
    decode (encode FenerbahceTracker.new) = some ⟨17, 2010, 0⟩ := by
  subst hk
  refine ⟨?_, encode_length _, by decide⟩
  unfold process_initialize_tracker
  rw [if_neg (by simp), if_neg (by omega)]

theorem C5_initialize_witness :
    process_initialize_tracker 0 0 [] = .ok (encode FenerbahceTracker.new) ∧
    (encode FenerbahceTracker.new).length = 11 ∧
    decode (encode FenerbahceTracker.new) = some ⟨17, 2010, 0⟩ :=
  C5_initialize 0 0 rfl [] rfl

/-- C6: for every valid tracker record (any u64 `total_trophies`, u16
`current_season`, u8 `seasons_played`), decoding the encoding yields exactly
the original record. -/
theorem C6_roundtrip (tt cs sp : Nat)
    (h1 : tt < U64_MOD) (h2 : cs < U16_MOD) (h3 : sp < U8_MOD) :
    decode (encode ⟨tt, cs, sp⟩) = some ⟨tt, cs, sp⟩ :=
  decode_encode ⟨tt, cs, sp⟩ ⟨h1, h2, h3⟩

theorem C6_roundtrip_witness : decode (encode ⟨19, 2013, 3⟩) = some ⟨19, 2013, 3⟩ :=
  C6_roundtrip 19 2013 3 (by rw [U64_MOD_eq]; omega) (by rw [U16_MOD_eq]; omega)
    (by rw [U8_MOD_eq]; omega)

/-- C7: instruction decoding returns `InitializeTracker` when the first byte
is 0, `PlaySeason` when it is 1, and the `InvalidInstructionData` error (the
spec's `InvalidOperation`) on empty input or any other first byte; the bytes
after the first never influence the result. -/
theorem C7_unpack (b : Nat) (rest rest2 : List Nat) :
    FenerbahceInstruction.unpack [] = .error .InvalidInstructionData ∧
    FenerbahceInstruction.unpack (0 :: rest) = .ok .InitializeTracker ∧
    FenerbahceInstruction.unpack (1 :: rest) = .ok .PlaySeason ∧
    (b ≠ 0 → b ≠ 1 → FenerbahceInstruction.unpack (b :: rest) =
      .error .InvalidInstructionData) ∧
    FenerbahceInstruction.unpack (b :: rest) = FenerbahceInstruction.unpack (b :: rest2) := by
  refine ⟨rfl, rfl, rfl, ?_, ?_⟩
  · intro h0 h1
    match b with
    | 0 => exact absurd rfl h0
    | 1 => exact absurd rfl h1
    | n + 2 => rfl
  · match b with
    | 0 => rfl
    | 1 => rfl
    | n + 2 => rfl

theorem C7_unpack_witness :
    FenerbahceInstruction.unpack [5, 9] = .error .InvalidInstructionData :=
  (C7_unpack 5 [9] [3, 4]).2.2.2.1 (by decide) (by decide)

theorem encode_getD_low (t : FenerbahceTracker) (i : Nat) (hi : i < 8) :
    (encode t).getD i 0 = t.total_trophies / 256 ^ i % 256 := by
  rw [encode,
    List.getD_append _ _ _ i (by rw [List.length_append, length_natToLe, length_natToLe]; omega),
    List.getD_append _ _ _ i (by rw [length_natToLe]; omega)]
  exact natToLe_getD 8 _ i hi

theorem encode_getD_mid (t : FenerbahceTracker) (i : Nat) (hi : i < 2) :
    (encode t).getD (8 + i) 0 = t.current_season / 256 ^ i % 256 := by
  rw [encode,
    List.getD_append _ _ _ (8 + i)
      (by rw [List.length_append, length_natToLe, length_natToLe]; omega),
    List.getD_append_right _ _ _ (8 + i) (by rw [length_natToLe]; omega)]
  rw [length_natToLe]
  have : 8 + i - 8 = i := by omega
  rw [this]
  exact natToLe_getD 2 _ i hi

theorem encode_getD_hi (t : FenerbahceTracker) :
    (encode t).getD 10 0 = t.seasons_played % 256 := by
  rw [encode,
    List.getD_append_right _ _ _ 10
      (by rw [List.length_append, length_natToLe, length_natToLe])]
  have hlen : (natToLe 8 t.total_trophies ++ natToLe 2 t.current_season).length = 10 := by
    rw [List.length_append, length_natToLe, length_natToLe]
  rw [hlen]
  have h := natToLe_getD 1 t.seasons_played 0 (by omega)
  simpa using h

/-- C8: the encoding of every valid record is exactly 11 bytes, laid out with
`total_trophies` little-endian at offsets 0-7, `current_season` little-endian
at offsets 8-9 and `seasons_played` at offset 10, and decoding any input
shorter than 11 bytes fails. -/
theorem C8_layout (tt cs sp : Nat)
    (_h1 : tt < U64_MOD) (h2 : cs < U16_MOD) (h3 : sp < U8_MOD)
    (bs : List Nat) (hbs : bs.length < 11) :
    decode bs = none ∧
    (encode ⟨tt, cs, sp⟩).length = 11 ∧
    (encode ⟨tt, cs, sp⟩).getD 0 0 = tt % 256 ∧
    (encode ⟨tt, cs, sp⟩).getD 1 0 = tt / 256 % 256 ∧
    (encode ⟨tt, cs, sp⟩).getD 2 0 = tt / 256 ^ 2 % 256 ∧
    (encode ⟨tt, cs, sp⟩).getD 3 0 = tt / 256 ^ 3 % 256 ∧
    (encode ⟨tt, cs, sp⟩).getD 4 0 = tt / 256 ^ 4 % 256 ∧
    (encode ⟨tt, cs, sp⟩).getD 5 0 = tt / 256 ^ 5 % 256 ∧
    (encode ⟨tt, cs, sp⟩).getD 6 0 = tt / 256 ^ 6 % 256 ∧
    (encode ⟨tt, cs, sp⟩).getD 7 0 = tt / 256 ^ 7 % 256 ∧
    (encode ⟨tt, cs, sp⟩).getD 8 0 = cs % 256 ∧
    (encode ⟨tt, cs, sp⟩).getD 9 0 = cs / 256 ∧
    (encode ⟨tt, cs, sp⟩).getD 10 0 = sp := by
  rw [U16_MOD_eq] at h2
  rw [U8_MOD_eq] at h3
  refine ⟨by rw [decode, if_neg (by omega)], encode_length _, ?_, ?_, ?_, ?_, ?_, ?_, ?_, ?_,
    ?_, ?_, ?_⟩
  · have h := encode_getD_low ⟨tt, cs, sp⟩ 0 (by omega)
    simpa using h
  · have h := encode_getD_low ⟨tt, cs, sp⟩ 1 (by omega)
    simpa using h
  · exact encode_getD_low ⟨tt, cs, sp⟩ 2 (by omega)
  · exact encode_getD_low ⟨tt, cs, sp⟩ 3 (by omega)
  · exact encode_getD_low ⟨tt, cs, sp⟩ 4 (by omega)
  · exact encode_getD_low ⟨tt, cs, sp⟩ 5 (by omega)
  · exact encode_getD_low ⟨tt, cs, sp⟩ 6 (by omega)
  · exact encode_getD_low ⟨tt, cs, sp⟩ 7 (by omega)
  · have h := encode_getD_mid ⟨tt, cs, sp⟩ 0 (by omega)
    simpa using h
  · have h := encode_getD_mid ⟨tt, cs, sp⟩ 1 (by omega)
    dsimp only at h
    simp only [pow_one] at h
    rw [show (9 : Nat) = 8 + 1 from rfl, h]
    exact Nat.mod_eq_of_lt (by omega)
  · rw [encode_getD_hi ⟨tt, cs, sp⟩]
    dsimp only
    exact Nat.mod_eq_of_lt (by omega)

theorem C8_layout_witness :
    decode [1, 2] = none ∧ (encode ⟨19, 2013, 3⟩).length = 11 := by
  have h := C8_layout 19 2013 3 (by rw [U64_MOD_eq]; omega) (by rw [U16_MOD_eq]; omega)
    (by rw [U8_MOD_eq]; omega) [1, 2] (by decide)
  exact ⟨h.1, h.2.1⟩

/-- C9: for every reachable record that is not complete, the season-ledger
lookup performed during Advance returns a defined entry, and the whole Advance
transition in fact succeeds, so the `LedgerInconsistency` error branch is
unreachable from any correctly initialized state. -/
theorem C9_ledger_defined (t : FenerbahceTracker) (hr : Reachable t)
    (hc : t.is_season_complete = false) :
    (SeasonData.get_season_data t.current_season).isSome = true ∧
    (process_play_season t).isOk = true := by
  obtain ⟨i1, i2, i3, i4⟩ := reachable_good hr
  have hle := not_complete_le hc
  have hk : t.seasons_played < 15 := by omega
  have hsome : (SeasonData.get_season_data t.current_season).isSome = true := by
    rw [i1]
    exact ledger_covers t.seasons_played hk
  refine ⟨hsome, ?_⟩
  cases hsd : SeasonData.get_season_data t.current_season with
  | none => rw [hsd] at hsome; cases hsome
  | some sd =>
    unfold process_play_season
    rw [hc]
    simp only [Bool.false_eq_true, if_false, hsd]
    by_cases hch : sd.champion = true
    · rw [if_pos hch, if_pos (by rw [U64_MOD_eq]; omega)]
      rfl
    · rw [if_neg hch]
      rfl

theorem C9_ledger_defined_witness :
    (SeasonData.get_season_data FenerbahceTracker.new.current_season).isSome = true ∧
    (process_play_season FenerbahceTracker.new).isOk = true :=
  C9_ledger_defined FenerbahceTracker.new Reachable.init (by decide)

/-- C10: in every reachable state, `seasons_played ≤ 15` and
`current_season ≤ 2025`, so on any state where Advance actually increments
(the non-complete ones) the u16 and u8 additions equal their plain `Nat`
values: they never wrap. -/
theorem C10_increments_no_wrap (t : FenerbahceTracker) (hr : Reachable t) :
    t.seasons_played ≤ 15 ∧ t.current_season ≤ 2025 ∧
    (t.is_season_complete = false →
      (t.current_season + 1) % U16_MOD = t.current_season + 1 ∧
      (t.seasons_played + 1) % U8_MOD = t.seasons_played + 1) := by
  obtain ⟨i1, i2, i3, i4⟩ := reachable_good hr
  refine ⟨i2, by omega, ?_⟩
  intro hc
  have hle := not_complete_le hc
  constructor
  · rw [U16_MOD_eq]
    exact Nat.mod_eq_of_lt (by omega)
  · rw [U8_MOD_eq]
    exact Nat.mod_eq_of_lt (by omega)

theorem C10_increments_no_wrap_witness :
    FenerbahceTracker.new.seasons_played ≤ 15 ∧
    FenerbahceTracker.new.current_season ≤ 2025 ∧
    (FenerbahceTracker.new.is_season_complete = false →
      (FenerbahceTracker.new.current_season + 1) % U16_MOD =
        FenerbahceTracker.new.current_season + 1 ∧
      (FenerbahceTracker.new.seasons_played + 1) % U8_MOD =
        FenerbahceTracker.new.seasons_played + 1) :=
  C10_increments_no_wrap FenerbahceTracker.new Reachable.init

end FBTracker
